import Mathlib

/-!
Verification of the `DeprecationItem` data model of the deprecations-rss
repository (`src/models.py`), embedded shallowly in Lean 4.

The record's derived `content_hash` is `hashlib.sha256(content.encode()).hexdigest()[:16]`,
so the development begins with an executable SHA-256 over byte lists
(bytes are `Nat`s, with `&&& 0xffffffff` wherever Python's fixed-width
arithmetic matters), together with UTF-8 encoding of strings (mirroring
`str.encode()`) and lowercase hex rendering (mirroring `.hexdigest()`).
-/

namespace DeprecationsRss

/-- Right rotation of a 32-bit word, the `ROTR` of FIPS 180-4. -/
def rotr (x n : Nat) : Nat := ((x >>> n) ||| (x <<< (32 - n))) &&& 0xffffffff

/-- The `Ch` function of FIPS 180-4 (`~x` is complement within 32 bits). -/
def chf (x y z : Nat) : Nat := (x &&& y) ^^^ ((x ^^^ 0xffffffff) &&& z)

/-- The `Maj` function of FIPS 180-4. -/
def maj (x y z : Nat) : Nat := (x &&& y) ^^^ (x &&& z) ^^^ (y &&& z)

/-- The big sigma-0 function of FIPS 180-4. -/
def bsig0 (x : Nat) : Nat := rotr x 2 ^^^ rotr x 13 ^^^ rotr x 22

/-- The big sigma-1 function of FIPS 180-4. -/
def bsig1 (x : Nat) : Nat := rotr x 6 ^^^ rotr x 11 ^^^ rotr x 25

/-- The small sigma-0 function of FIPS 180-4. -/
def ssig0 (x : Nat) : Nat := rotr x 7 ^^^ rotr x 18 ^^^ (x >>> 3)

/-- The small sigma-1 function of FIPS 180-4. -/
def ssig1 (x : Nat) : Nat := rotr x 17 ^^^ rotr x 19 ^^^ (x >>> 10)

/-- The 64 SHA-256 round constants of FIPS 180-4 (decimal). -/
def roundK : List Nat :=
  [1116352408, 1899447441, 3049323471, 3921009573, 961987163, 1508970993,
   2453635748, 2870763221, 3624381080, 310598401, 607225278, 1426881987,
   1925078388, 2162078206, 2614888103, 3248222580, 3835390401, 4022224774,
   264347078, 604807628, 770255983, 1249150122, 1555081692, 1996064986,
   2554220882, 2821834349, 2952996808, 3210313671, 3336571891, 3584528711,
   113926993, 338241895, 666307205, 773529912, 1294757372, 1396182291,
   1695183700, 1986661051, 2177026350, 2456956037, 2730485921, 2820302411,
   3259730800, 3345764771, 3516065817, 3600352804, 4094571909, 275423344,
   430227734, 506948616, 659060556, 883997877, 958139571, 1322822218,
   1537002063, 1747873779, 1955562222, 2024104815, 2227730452, 2361852424,
   2428436474, 2756734187, 3204031479, 3329325298]

/-- The eight 32-bit working variables of the SHA-256 compression function. -/
structure Sha256State where
  a : Nat
  b : Nat
  c : Nat
  d : Nat
  e : Nat
  f : Nat
  g : Nat
  h : Nat

/-- Initial hash value `H(0)` of FIPS 180-4 (decimal). -/
def initState : Sha256State :=
  ⟨1779033703, 3144134277, 1013904242, 2773480762,
   1359893119, 2600822924, 528734635, 1541459225⟩

/-- The eight bytes of a 64-bit length field, big-endian. -/
def lenBytes (n : Nat) : List Nat :=
  [n >>> 56 &&& 0xff, n >>> 48 &&& 0xff, n >>> 40 &&& 0xff, n >>> 32 &&& 0xff,
   n >>> 24 &&& 0xff, n >>> 16 &&& 0xff, n >>> 8 &&& 0xff, n &&& 0xff]

/-- SHA-256 message padding: append `0x80`, zero bytes up to 56 mod 64, and
the bit length as eight big-endian bytes. -/
def padMessage (msg : List Nat) : List Nat :=
  let len := msg.length
  let zeros := (64 - (len + 9) % 64) % 64
  msg ++ [0x80] ++ List.replicate zeros 0 ++ lenBytes (8 * len)

/-- Group bytes into big-endian 32-bit words. -/
def bytesToWords : List Nat → List Nat
  | b0 :: b1 :: b2 :: b3 :: rest =>
      ((b0 <<< 24) ||| (b1 <<< 16) ||| (b2 <<< 8) ||| b3) :: bytesToWords rest
  | _ => []

/-- Split a byte list into 64-byte blocks; the fuel argument (instantiated
with the list length) only makes the recursion structural. -/
def chunk64 : Nat → List Nat → List (List Nat)
  | 0, _ => []
  | _, [] => []
  | fuel + 1, bytes => bytes.take 64 :: chunk64 fuel (bytes.drop 64)

/-- Extend the 16 message words by one scheduled word `n` times. -/
def extendSchedule : Nat → List Nat → List Nat
  | 0, w => w
  | n + 1, w =>
      let i := w.length
      let next := (ssig1 (w.getD (i - 2) 0) + w.getD (i - 7) 0 +
                   ssig0 (w.getD (i - 15) 0) + w.getD (i - 16) 0) &&& 0xffffffff
      extendSchedule n (w ++ [next])

/-- One round of the SHA-256 compression function, consuming a pair of a
round constant and a scheduled message word. -/
def sha256Round (st : Sha256State) (kw : Nat × Nat) : Sha256State :=
  let t1 := (st.h + bsig1 st.e + chf st.e st.f st.g + kw.1 + kw.2) &&& 0xffffffff
  let t2 := (bsig0 st.a + maj st.a st.b st.c) &&& 0xffffffff
  ⟨(t1 + t2) &&& 0xffffffff, st.a, st.b, st.c,
   (st.d + t1) &&& 0xffffffff, st.e, st.f, st.g⟩

/-- Process one 64-byte block: schedule, 64 rounds, and the feed-forward
addition of the incoming state. -/
def processBlock (st : Sha256State) (block : List Nat) : Sha256State :=
  let w := extendSchedule 48 (bytesToWords block)
  let z := (roundK.zip w).foldl sha256Round st
  ⟨(st.a + z.a) &&& 0xffffffff, (st.b + z.b) &&& 0xffffffff,
   (st.c + z.c) &&& 0xffffffff, (st.d + z.d) &&& 0xffffffff,
   (st.e + z.e) &&& 0xffffffff, (st.f + z.f) &&& 0xffffffff,
   (st.g + z.g) &&& 0xffffffff, (st.h + z.h) &&& 0xffffffff⟩

/-- The four big-endian bytes of a 32-bit word. -/
def wordBytes (w : Nat) : List Nat :=
  [w >>> 24 &&& 0xff, w >>> 16 &&& 0xff, w >>> 8 &&& 0xff, w &&& 0xff]

/-- The 32 digest bytes of a final SHA-256 state. -/
def stateBytes (st : Sha256State) : List Nat :=
  wordBytes st.a ++ wordBytes st.b ++ wordBytes st.c ++ wordBytes st.d ++
  wordBytes st.e ++ wordBytes st.f ++ wordBytes st.g ++ wordBytes st.h

/-- SHA-256 of a byte list, as its 32 digest bytes. -/
def sha256Bytes (msg : List Nat) : List Nat :=
  let padded := padMessage msg
  stateBytes ((chunk64 padded.length padded).foldl processBlock initState)

/-- The sixteen lowercase hex digits, in order. -/
def hexChars : List Char := "0123456789abcdef".data

/-- The lowercase hex digit of a value below 16. -/
def hexDigit (n : Nat) : Char := hexChars.getD n '0'

/-- The two lowercase hex digits of a byte, as `%02x` renders it. -/
def byteHex (b : Nat) : List Char := [hexDigit (b / 16), hexDigit (b % 16)]

/-- The 64 characters of `hashlib.sha256(msg).hexdigest()`. -/
def sha256HexChars (msg : List Nat) : List Char :=
  (sha256Bytes msg).flatMap byteHex

/-- UTF-8 encoding of one scalar value, as `str.encode()` emits it. -/
def utf8EncodeChar (c : Char) : List Nat :=
  let n := c.toNat
  if n < 0x80 then [n]
  else if n < 0x800 then
    [0xc0 ||| (n >>> 6), 0x80 ||| (n &&& 0x3f)]
  else if n < 0x10000 then
    [0xe0 ||| (n >>> 12), 0x80 ||| ((n >>> 6) &&& 0x3f), 0x80 ||| (n &&& 0x3f)]
  else
    [0xf0 ||| (n >>> 18), 0x80 ||| ((n >>> 12) &&& 0x3f),
     0x80 ||| ((n >>> 6) &&& 0x3f), 0x80 ||| (n &&& 0x3f)]

/-- UTF-8 bytes of a string, as Python's `str.encode()` returns them. -/
def utf8Bytes (s : String) : List Nat := s.data.flatMap utf8EncodeChar

/-- A Python value as it can appear in the dictionaries handled by
`to_dict` / `from_dict`: `None`, a string, an integer, or a list. -/
inductive Value where
  | null : Value
  | str : String → Value
  | int : Int → Value
  | list : List Value → Value

/-- A Python dictionary with string keys, as an association list. -/
def Dict := List (String × Value)

/-- Python truthiness (`if v:`) for the values of `Value`. -/
def pyTruthy : Value → Bool
  | .null => false
  | .str s => s != ""
  | .int n => n != 0
  | .list l => !l.isEmpty

/-- Whether a value is Python's `None` (the `is None` test). -/
def Value.isNull : Value → Bool
  | .null => true
  | _ => false

/-- Whether a value equals the string `"or"`; `"or" in some_list` compares
`"or"` with each element by `==`, which no non-string element can satisfy. -/
def Value.isStrOr : Value → Bool
  | .str s => s == "or"
  | _ => false

/-- Read a string-typed field out of a dictionary value.  The record's fields
are typed per the dataclass annotations, and on the §6 input boundary the
named keys carry strings; a non-string value reads as the default `""`. -/
def Value.asStr : Value → String
  | .str s => s
  | _ => ""

/-- Model of `data.get(k, default)`: the value at the first matching key,
else the default. -/
def dictGetD (data : Dict) (k : String) (default : Value) : Value :=
  match List.find? (fun p => p.1 == k) data with
  | some p => p.2
  | none => default

/-- Model of `data.get(k)`: the value at the key, else `None`. -/
def dictGet (data : Dict) (k : String) : Value := dictGetD data k .null

/-- Model of `k in data`: whether the dictionary has the key. -/
def hasKey (data : Dict) (k : String) : Bool :=
  (List.find? (fun p => p.1 == k) data).isSome

/-- Whether `pat` occurs as a contiguous sublist (Python's `sub in s`). -/
def containsSub (pat : List Char) : List Char → Bool
  | [] => pat.isEmpty
  | c :: rest => pat.isPrefixOf (c :: rest) || containsSub pat rest

/-- Python's `sub in s` on strings. -/
def pyIn (sub s : String) : Bool := containsSub sub.data s.data

/-- Worker for `str.split(sep)` with a non-empty separator: scan left to
right, cutting at each non-overlapping occurrence; the fuel argument
(instantiated with the list length) only makes the recursion structural. -/
def splitGo : Nat → List Char → List Char → List Char → List (List Char)
  | _, _, acc, [] => [acc.reverse]
  | 0, _, acc, rest => [acc.reverse ++ rest]
  | fuel + 1, sep, acc, c :: rest =>
      if sep.isPrefixOf (c :: rest) then
        acc.reverse :: splitGo fuel sep [] ((c :: rest).drop sep.length)
      else
        splitGo fuel sep (c :: acc) rest

/-- Python's `s.split(sep)` for a non-empty separator. -/
def pySplitOn (sep s : String) : List String :=
  (splitGo s.data.length sep.data [] s.data).map String.mk

/-- The record of `src/models.py`, fields in declaration order and typed per
the dataclass annotations; `replacement_models` is kept as a raw `Value`
(`Value.null` standing for `None`) because `from_dict` stores whatever value
the input carried. -/
structure DeprecationItem where
  provider : String
  model_id : String
  model_name : String
  announcement_date : String
  shutdown_date : String
  replacement_models : Value
  deprecation_context : String
  url : String
  content_hash : String
  scraped_at : String

/-- Model of `DeprecationItem._compute_hash`:
`hashlib.sha256(content.encode()).hexdigest()[:16]`. -/
def computeHash (content : String) : String :=
  String.mk ((sha256HexChars (utf8Bytes content)).take 16)

/-- Constructing a `DeprecationItem` (the dataclass `__init__` followed by
`__post_init__`).  `now` stands for `datetime.now(timezone.utc).isoformat()`,
which the embedding passes in explicitly. -/
def DeprecationItem.construct (now provider model_id model_name announcement_date
    shutdown_date : String) (replacement_models : Value)
    (deprecation_context url content_hash scraped_at : String) : DeprecationItem :=
  let scraped_at := if scraped_at = "" then now else scraped_at
  let content_hash :=
    if content_hash = "" then
      computeHash (provider ++ "|" ++ model_id ++ "|" ++ shutdown_date ++ "|" ++
        announcement_date)
    else content_hash
  ⟨provider, model_id, model_name, announcement_date, shutdown_date,
   replacement_models, deprecation_context, url, content_hash, scraped_at⟩

/-- Model of `DeprecationItem.to_dict`: the literal ten-entry dictionary. -/
def DeprecationItem.to_dict (r : DeprecationItem) : Dict :=
  [("provider", .str r.provider),
   ("model_id", .str r.model_id),
   ("model_name", .str r.model_name),
   ("announcement_date", .str r.announcement_date),
   ("shutdown_date", .str r.shutdown_date),
   ("replacement_models", r.replacement_models),
   ("deprecation_context", .str r.deprecation_context),
   ("url", .str r.url),
   ("content_hash", .str r.content_hash),
   ("scraped_at", .str r.scraped_at)]

/-- Lines 59–73 of `from_dict`: the backward-compatibility migration of the
legacy singular `replacement_model` value.  `"or" in old_value` raises
`TypeError` when `old_value` is an integer, and `old_value.split("or")`
raises `AttributeError` when `old_value` is a list that contains `"or"`;
the `Except` layer carries exactly those exceptions. -/
def legacyMigrate (data : Dict) : Except String Value :=
  let rm := dictGet data "replacement_models"
  if rm.isNull && hasKey data "replacement_model" then
    let old := dictGet data "replacement_model"
    if pyTruthy old then
      match old with
      | .str s =>
          if pyIn "or" s && !pyIn " " ((pySplitOn "or" s).headD "") &&
             !pyIn " " ((pySplitOn "or" s).getLastD "") then
            .ok (.list (((pySplitOn "or" s).filter (fun m => m != "")).map .str))
          else
            .ok (.list [old])
      | .int _ => .error "TypeError: argument of type int is not iterable"
      | .list l =>
          if l.any Value.isStrOr then
            .error "AttributeError: list object has no attribute split"
          else
            .ok (.list [old])
      | .null => .error "TypeError: argument of type NoneType is not iterable"
    else
      .ok .null
  else
    .ok rm

/-- Model of `DeprecationItem.from_dict`: migrate the legacy replacement
field, then call the constructor with `data.get(key, "")` for every string
field. -/
def DeprecationItem.from_dict (now : String) (data : Dict) :
    Except String DeprecationItem :=
  match legacyMigrate data with
  | .error e => .error e
  | .ok replacement_models =>
      .ok (DeprecationItem.construct now
        (dictGetD data "provider" (.str "")).asStr
        (dictGetD data "model_id" (.str "")).asStr
        (dictGetD data "model_name" (.str "")).asStr
        (dictGetD data "announcement_date" (.str "")).asStr
        (dictGetD data "shutdown_date" (.str "")).asStr
        replacement_models
        (dictGetD data "deprecation_context" (.str "")).asStr
        (dictGetD data "url" (.str "")).asStr
        (dictGetD data "content_hash" (.str "")).asStr
        (dictGetD data "scraped_at" (.str "")).asStr)

/-- Model of `DeprecationItem.matches_previous`: same provider, model id, and
content hash. -/
def DeprecationItem.matches_previous (a other : DeprecationItem) : Bool :=
  a.provider == other.provider && a.model_id == other.model_id &&
    a.content_hash == other.content_hash

/-- Whether deserialization succeeded (Python terms: raised no exception). -/
def exceptOk {α : Type} : Except String α → Bool
  | .ok _ => true
  | .error _ => false

/-! ### Helper lemmas -/

/-- FIPS 180-4 test vector: the digest of the empty message. -/
theorem sha256_empty_vector :
    sha256HexChars [] =
      "e3b0c44298fc1c149afbf4c8996fb92427ae41e4649b934ca495991b7852b855".data := by
  decide

/-- FIPS 180-4 test vector: the digest of `"abc"`. -/
theorem sha256_abc_vector :
    sha256HexChars (utf8Bytes "abc") =
      "ba7816bf8f01cfea414140de5dae2223b00361a396177a9cb410ff61f20015ad".data := by
  decide

/-- A derived hash has exactly 16 characters: the digest state always yields
32 bytes, hence 64 hex characters, of which 16 are kept. -/
theorem computeHash_length (s : String) : (computeHash s).length = 16 := rfl

/-- A derived hash is never the empty string. -/
theorem computeHash_ne_empty (s : String) : computeHash s ≠ "" := by
  intro h
  have h16 : (computeHash s).length = 16 := computeHash_length s
  rw [h] at h16
  exact absurd h16 (by decide)

/-- Every output of `hexDigit` is one of the sixteen lowercase hex digits. -/
theorem hexDigit_mem (n : Nat) : hexDigit n ∈ hexChars := by
  by_cases h : n < 16
  · interval_cases n <;> decide
  · unfold hexDigit
    rw [List.getD_eq_default]
    · decide
    · have hlen : hexChars.length = 16 := rfl
      rw [hlen]
      exact Nat.le_of_not_lt h

/-- Every character of a byte's hex rendering is a lowercase hex digit. -/
theorem mem_byteHex (b : Nat) (c : Char) (hc : c ∈ byteHex b) : c ∈ hexChars := by
  simp only [byteHex, List.mem_cons, List.not_mem_nil, or_false] at hc
  rcases hc with h | h <;> exact h ▸ hexDigit_mem _

/-- Every character of a derived hash is a lowercase hex digit. -/
theorem mem_computeHash_hex (s : String) (c : Char)
    (hc : c ∈ (computeHash s).data) : c ∈ hexChars := by
  have hc2 : c ∈ sha256HexChars (utf8Bytes s) :=
    List.take_subset 16 _ hc
  simp only [sha256HexChars, List.mem_flatMap] at hc2
  obtain ⟨b, _, hb⟩ := hc2
  exact mem_byteHex b c hb

/-- When a key is absent, `data.get(k, default)` returns the default. -/
theorem dictGetD_of_not_hasKey (data : Dict) (k : String) (v : Value)
    (h : hasKey data k = false) : dictGetD data k v = v := by
  unfold hasKey at h
  unfold dictGetD
  rcases hfind : List.find? (fun p => p.1 == k) data with _ | p
  · rw [hfind]
  · rw [hfind] at h
    simp at h

/-- Serializing then looking up the legacy-migration inputs: a serialized
record never has the singular `replacement_model` key, so migration returns
its `replacement_models` value unchanged. -/
theorem legacyMigrate_to_dict (r : DeprecationItem) :
    legacyMigrate r.to_dict = .ok r.replacement_models := by
  rcases r with ⟨p, mi, mn, ad, sd, rm, dc, u, ch, sa⟩
  cases rm <;> rfl

/-- A serialized record whose stored `content_hash` and `scraped_at` are
non-empty deserializes back to the same record. -/
theorem from_dict_to_dict (now2 : String) (r : DeprecationItem)
    (hch : r.content_hash ≠ "") (hsa : r.scraped_at ≠ "") :
    DeprecationItem.from_dict now2 r.to_dict = .ok r := by
  unfold DeprecationItem.from_dict
  rw [legacyMigrate_to_dict]
  have hX : DeprecationItem.construct now2 r.provider r.model_id r.model_name
      r.announcement_date r.shutdown_date r.replacement_models
      r.deprecation_context r.url r.content_hash r.scraped_at = r := by
    unfold DeprecationItem.construct
    rw [if_neg hch, if_neg hsa]
  exact congrArg Except.ok hX

/-! ### The claims -/

/-- C1: with no explicit `content_hash`, the constructed record's hash is the
first 16 hex characters of the SHA-256 hex digest of
`provider|model_id|shutdown_date|announcement_date`; concretely, the OpenAI
example hashes to `sha256("OpenAI|gpt-4-32k-0613|2025-01-01|2024-01-01")`
truncated to 16 hex characters, which is `"70183dd6388c56b4"`. -/
theorem spec_c1_content_hash :
    (∀ now p mi mn ad sd : String, ∀ rm : Value, ∀ dc u sa : String,
       (DeprecationItem.construct now p mi mn ad sd rm dc u "" sa).content_hash =
         String.mk ((sha256HexChars
           (utf8Bytes (p ++ "|" ++ mi ++ "|" ++ sd ++ "|" ++ ad))).take 16)) ∧
    (DeprecationItem.construct "2025-10-12T00:00:00+00:00" "OpenAI"
        "gpt-4-32k-0613" "GPT-4 32k" "2024-01-01" "2025-01-01"
        .null "" "" "" "").content_hash = "70183dd6388c56b4" := by
  constructor
  · intro now p mi mn ad sd rm dc u sa
    rfl
  · decide

/-- C2: serializing a constructed record and deserializing it again yields an
equal record on all ten fields; the already-set `scraped_at` and
`content_hash` pass through unchanged, and a null `replacement_models` passes
through as null.  The hypothesis `now ≠ ""` states that the construction
timestamp taken from the clock is a non-empty string. -/
theorem spec_c2_roundtrip (now now2 p mi mn ad sd : String) (rm : Value)
    (dc u ch sa : String) (hnow : now ≠ "") :
    DeprecationItem.from_dict now2
        (DeprecationItem.construct now p mi mn ad sd rm dc u ch sa).to_dict =
      .ok (DeprecationItem.construct now p mi mn ad sd rm dc u ch sa) := by
  apply from_dict_to_dict
  · show (if ch = "" then computeHash (p ++ "|" ++ mi ++ "|" ++ sd ++ "|" ++ ad)
          else ch) ≠ ""
    split_ifs with h
    · exact computeHash_ne_empty _
    · exact h
  · show (if sa = "" then now else sa) ≠ ""
    split_ifs with h
    · exact hnow
    · exact h

/-- Witness for C2 at a concrete record. -/
theorem spec_c2_roundtrip_witness :
    DeprecationItem.from_dict "u"
        (DeprecationItem.construct "t" "p" "mi" "mn" "ad" "sd" .null
          "" "" "xh" "").to_dict =
      .ok (DeprecationItem.construct "t" "p" "mi" "mn" "ad" "sd" .null
        "" "" "xh" "") :=
  spec_c2_roundtrip "t" "u" "p" "mi" "mn" "ad" "sd" .null "" "" "xh" ""
    (by decide)

/-- C4: `matches_previous` is true exactly when provider, model id, and
content hash agree; it is reflexive and symmetric, and changing only
`model_name`, `url`, `deprecation_context`, `replacement_models`, or
`scraped_at` never breaks it. -/
theorem spec_c4_equivalence :
    (∀ a b : DeprecationItem, a.matches_previous b = true ↔
       (a.provider = b.provider ∧ a.model_id = b.model_id ∧
        a.content_hash = b.content_hash)) ∧
    (∀ a : DeprecationItem, a.matches_previous a = true) ∧
    (∀ a b : DeprecationItem, a.matches_previous b = b.matches_previous a) ∧
    (∀ (r : DeprecationItem) (mn u dc sa : String) (rm : Value),
       DeprecationItem.matches_previous
           { r with model_name := mn, url := u, deprecation_context := dc,
                    replacement_models := rm, scraped_at := sa } r = true ∧
       DeprecationItem.matches_previous r
           { r with model_name := mn, url := u, deprecation_context := dc,
                    replacement_models := rm, scraped_at := sa } = true) := by
  refine ⟨?_, ?_, ?_, ?_⟩
  · intro a b
    simp [DeprecationItem.matches_previous, and_assoc]
  · intro a
    simp [DeprecationItem.matches_previous]
  · intro a b
    rw [Bool.eq_iff_iff]
    simp only [DeprecationItem.matches_previous, Bool.and_eq_true, beq_iff_eq,
      and_assoc]
    constructor <;> rintro ⟨h1, h2, h3⟩ <;> exact ⟨h1.symm, h2.symm, h3.symm⟩
  · intro r mn u dc sa rm
    constructor <;> simp [DeprecationItem.matches_previous]

/-- C8: `to_dict` emits exactly the ten field names, in declaration order,
each bound to the record's current field value; `replacement_models` is bound
to the stored value itself, so to null exactly when it is absent and to the
ordered list otherwise. -/
theorem spec_c8_to_dict_shape (r : DeprecationItem) :
    r.to_dict.map Prod.fst =
      ["provider", "model_id", "model_name", "announcement_date",
       "shutdown_date", "replacement_models", "deprecation_context", "url",
       "content_hash", "scraped_at"] ∧
    dictGet r.to_dict "provider" = .str r.provider ∧
    dictGet r.to_dict "model_id" = .str r.model_id ∧
    dictGet r.to_dict "model_name" = .str r.model_name ∧
    dictGet r.to_dict "announcement_date" = .str r.announcement_date ∧
    dictGet r.to_dict "shutdown_date" = .str r.shutdown_date ∧
    dictGet r.to_dict "replacement_models" = r.replacement_models ∧
    dictGet r.to_dict "deprecation_context" = .str r.deprecation_context ∧
    dictGet r.to_dict "url" = .str r.url ∧
    dictGet r.to_dict "content_hash" = .str r.content_hash ∧
    dictGet r.to_dict "scraped_at" = .str r.scraped_at :=
  ⟨rfl, rfl, rfl, rfl, rfl, rfl, rfl, rfl, rfl, rfl, rfl⟩

/-- C9: the legacy migration splits even the single space-free name `"orca"`,
because `"orca"` contains `"or"`, splits into `""` and `"ca"`, and only the
non-empty segments are kept: the result is `["ca"]`, not `["orca"]`. -/
theorem spec_c9_orca_split (now : String) :
    DeprecationItem.from_dict now [("replacement_model", Value.str "orca")] =
      .ok (DeprecationItem.construct now "" "" "" "" ""
        (.list [.str "ca"]) "" "" "" "") ∧
    Value.list [Value.str "ca"] ≠ Value.list [Value.str "orca"] := by
  constructor
  · rfl
  · simp

/-- C10: the derived hash depends on the identity fields only through their
pipe-joined concatenation: `provider="a|b", model_id="c"` and
`provider="a", model_id="b|c"` (equal dates) join to the same string, so the
two records share a `content_hash` while not being equivalent. -/
theorem spec_c10_hash_collision :
    (DeprecationItem.construct "t" "a|b" "c" "n" "ad" "sd" .null
        "" "" "" "").content_hash =
      (DeprecationItem.construct "t" "a" "b|c" "n" "ad" "sd" .null
        "" "" "" "").content_hash ∧
    (DeprecationItem.construct "t" "a|b" "c" "n" "ad" "sd" .null
        "" "" "" "").matches_previous
      (DeprecationItem.construct "t" "a" "b|c" "n" "ad" "sd" .null
        "" "" "" "") = false := by
  constructor
  · rfl
  · rfl

/-- The legacy migration of any dictionary whose `replacement_models` lookup
is null and whose present legacy key holds the string `s`, reduced to its
decision structure. -/
theorem legacyMigrate_of_str (data : Dict) (s : String)
    (h0 : dictGet data "replacement_models" = Value.null)
    (h1 : hasKey data "replacement_model" = true)
    (h2 : dictGet data "replacement_model" = Value.str s) :
    legacyMigrate data =
      if s != "" then
        (if pyIn "or" s && !pyIn " " ((pySplitOn "or" s).headD "") &&
            !pyIn " " ((pySplitOn "or" s).getLastD "") then
          .ok (.list (((pySplitOn "or" s).filter (fun m => m != "")).map .str))
        else .ok (.list [.str s]))
      else .ok .null := by
  unfold legacyMigrate
  rw [h0, h1, h2]
  rfl

/-- C3 counterexample: the claim requires the split to happen only when the
boundary segments contain no whitespace, but the code checks only for the
space character.  On `{"replacement_model": "a\torb"}`, whose first segment
`"a\t"` contains a tab, the code still splits, yielding `["a\t", "b"]` rather
than the claimed `["a\torb"]`. -/
theorem spec_c3_counterexample :
    DeprecationItem.from_dict "t" [("replacement_model", Value.str "a\torb")] =
      .ok ⟨"", "", "", "", "", .list [.str "a\t", .str "b"], "", "",
        "be5be69f55e91af2", "t"⟩ ∧
    Value.list [Value.str "a\t", Value.str "b"] ≠
      Value.list [Value.str "a\torb"] := by
  constructor
  · rfl
  · simp

/-- C3 as amended: the split condition checks the boundary segments for the
space character (U+0020) only, not for arbitrary whitespace.  With that
reading, for every input map: when the `replacement_models` lookup is null
and a legacy `replacement_model` key holds a non-empty string, the string
splits on `"or"` into its non-empty segments when it contains `"or"` and
neither boundary segment contains a space, and otherwise becomes a
one-element list; when the legacy value is empty, null, or absent, the
result is null; a present `replacement_models` list is passed through and
the legacy key ignored; concretely,
`"gpt-image-1orgpt-image-1-mini"` gives
`["gpt-image-1", "gpt-image-1-mini"]` and `"gpt-4-turbo"` gives
`["gpt-4-turbo"]`. -/
theorem spec_c3_legacy_migration :
    (∀ (now : String) (data : Dict) (r : DeprecationItem) (s : String),
       dictGet data "replacement_models" = Value.null →
       hasKey data "replacement_model" = true →
       dictGet data "replacement_model" = Value.str s →
       s ≠ "" →
       pyIn "or" s = true →
       pyIn " " ((pySplitOn "or" s).headD "") = false →
       pyIn " " ((pySplitOn "or" s).getLastD "") = false →
       DeprecationItem.from_dict now data = .ok r →
       r.replacement_models =
         .list (((pySplitOn "or" s).filter (fun m => m != "")).map .str)) ∧
    (∀ (now : String) (data : Dict) (r : DeprecationItem) (s : String),
       dictGet data "replacement_models" = Value.null →
       hasKey data "replacement_model" = true →
       dictGet data "replacement_model" = Value.str s →
       s ≠ "" →
       (pyIn "or" s = false ∨
        pyIn " " ((pySplitOn "or" s).headD "") = true ∨
        pyIn " " ((pySplitOn "or" s).getLastD "") = true) →
       DeprecationItem.from_dict now data = .ok r →
       r.replacement_models = .list [.str s]) ∧
    (∀ (now : String) (data : Dict) (r : DeprecationItem),
       dictGet data "replacement_models" = Value.null →
       (dictGet data "replacement_model" = Value.null ∨
        dictGet data "replacement_model" = Value.str "") →
       DeprecationItem.from_dict now data = .ok r →
       r.replacement_models = Value.null) ∧
    (∀ (now : String) (data : Dict) (r : DeprecationItem) (l : List Value),
       dictGet data "replacement_models" = Value.list l →
       DeprecationItem.from_dict now data = .ok r →
       r.replacement_models = Value.list l) ∧
    (∀ now : String,
       DeprecationItem.from_dict now
           [("replacement_model", Value.str "gpt-image-1orgpt-image-1-mini")] =
         .ok (DeprecationItem.construct now "" "" "" "" ""
           (.list [.str "gpt-image-1", .str "gpt-image-1-mini"]) "" "" "" "")) ∧
    (∀ now : String,
       DeprecationItem.from_dict now
           [("replacement_model", Value.str "gpt-4-turbo")] =
         .ok (DeprecationItem.construct now "" "" "" "" ""
           (.list [.str "gpt-4-turbo"]) "" "" "" "")) := by
  refine ⟨?_, ?_, ?_, ?_, fun now => rfl, fun now => rfl⟩
  · intro now data r s h0 hk h2 hs hA hB hD hok
    have hC : (pyIn "or" s && !pyIn " " ((pySplitOn "or" s).headD "") &&
        !pyIn " " ((pySplitOn "or" s).getLastD "")) = true := by
      rw [hA, hB, hD]
      rfl
    have hmig := legacyMigrate_of_str data s h0 hk h2
    rw [if_pos (bne_iff_ne.mpr hs), if_pos hC] at hmig
    unfold DeprecationItem.from_dict at hok
    rw [hmig] at hok
    injection hok with hr
    subst hr
    rfl
  · intro now data r s h0 hk h2 hs h hok
    have hC : (pyIn "or" s && !pyIn " " ((pySplitOn "or" s).headD "") &&
        !pyIn " " ((pySplitOn "or" s).getLastD "")) = false := by
      rcases h with h1 | h2x | h3x
      · rw [h1]
        rfl
      · rw [h2x]
        simp only [Bool.not_true, Bool.and_false, Bool.false_and]
      · rw [h3x]
        simp only [Bool.not_true, Bool.and_false]
    have hmig := legacyMigrate_of_str data s h0 hk h2
    rw [if_pos (bne_iff_ne.mpr hs),
      if_neg (by rw [hC]; exact Bool.false_ne_true)] at hmig
    unfold DeprecationItem.from_dict at hok
    rw [hmig] at hok
    injection hok with hr
    subst hr
    rfl
  · intro now data r h0 hleg hok
    have hmig : legacyMigrate data = .ok Value.null := by
      unfold legacyMigrate
      rcases hleg with hnull | hempty
      · rw [h0, hnull]
        cases hkey : hasKey data "replacement_model"
        · rfl
        · rfl
      · rw [h0, hempty]
        cases hkey : hasKey data "replacement_model"
        · rfl
        · rfl
    unfold DeprecationItem.from_dict at hok
    rw [hmig] at hok
    injection hok with hr
    subst hr
    rfl
  · intro now data r l h0 hok
    have hmig : legacyMigrate data = .ok (Value.list l) := by
      unfold legacyMigrate
      rw [h0]
      rfl
    unfold DeprecationItem.from_dict at hok
    rw [hmig] at hok
    injection hok with hr
    subst hr
    rfl

/-- Witness for C3: the single-model input `"gpt-4-turbo"`, through the
one-element branch of the migration. -/
theorem spec_c3_witness :
    (DeprecationItem.construct "t" "" "" "" "" ""
        (.list [.str "gpt-4-turbo"]) "" "" "" "").replacement_models =
      Value.list [Value.str "gpt-4-turbo"] :=
  spec_c3_legacy_migration.2.1 "t"
    [("replacement_model", Value.str "gpt-4-turbo")]
    (DeprecationItem.construct "t" "" "" "" "" ""
      (.list [.str "gpt-4-turbo"]) "" "" "" "")
    "gpt-4-turbo" rfl rfl rfl (by decide) (Or.inl rfl) rfl

/-- C5 counterexample: on an input map missing every key, the deserialized
record's `content_hash` is the derived hash of `"|||"` (not the empty
string), and its `scraped_at` is the construction timestamp (not the empty
string), because the constructor normalizes both after the lookups default
to `""`. -/
theorem spec_c5_counterexample :
    DeprecationItem.from_dict "2024-01-01T00:00:00+00:00" [] =
      .ok ⟨"", "", "", "", "", .null, "", "", "be5be69f55e91af2",
        "2024-01-01T00:00:00+00:00"⟩ ∧
    ("be5be69f55e91af2" : String) ≠ "" ∧
    ("2024-01-01T00:00:00+00:00" : String) ≠ "" := by
  refine ⟨rfl, by decide, by decide⟩

/-- C5 as amended, per key over every input map: each missing key falls back
to the empty string as the corresponding constructor argument
(`replacement_models` to the legacy logic, null when both its keys are
absent), after which construction normalizes the two derived fields: a
missing non-derived string field is empty in the record, while a missing
`content_hash` yields the derived hash of the pipe-joined identity fields
and a missing `scraped_at` yields the construction timestamp. -/
theorem spec_c5_defaults (now : String) (data : Dict) (r : DeprecationItem)
    (hok : DeprecationItem.from_dict now data = .ok r) :
    (hasKey data "provider" = false → r.provider = "") ∧
    (hasKey data "model_id" = false → r.model_id = "") ∧
    (hasKey data "model_name" = false → r.model_name = "") ∧
    (hasKey data "announcement_date" = false → r.announcement_date = "") ∧
    (hasKey data "shutdown_date" = false → r.shutdown_date = "") ∧
    (hasKey data "deprecation_context" = false → r.deprecation_context = "") ∧
    (hasKey data "url" = false → r.url = "") ∧
    (hasKey data "replacement_models" = false →
       hasKey data "replacement_model" = false →
       r.replacement_models = Value.null) ∧
    (hasKey data "content_hash" = false →
       r.content_hash = computeHash (r.provider ++ "|" ++ r.model_id ++ "|" ++
         r.shutdown_date ++ "|" ++ r.announcement_date)) ∧
    (hasKey data "scraped_at" = false → r.scraped_at = now) := by
  unfold DeprecationItem.from_dict at hok
  rcases hmig : legacyMigrate data with e | rm
  · rw [hmig] at hok
    exact Except.noConfusion hok
  · rw [hmig] at hok
    injection hok with hr
    subst hr
    refine ⟨?_, ?_, ?_, ?_, ?_, ?_, ?_, ?_, ?_, ?_⟩
    · intro h
      rw [dictGetD_of_not_hasKey data "provider" (Value.str "") h]
      rfl
    · intro h
      rw [dictGetD_of_not_hasKey data "model_id" (Value.str "") h]
      rfl
    · intro h
      rw [dictGetD_of_not_hasKey data "model_name" (Value.str "") h]
      rfl
    · intro h
      rw [dictGetD_of_not_hasKey data "announcement_date" (Value.str "") h]
      rfl
    · intro h
      rw [dictGetD_of_not_hasKey data "shutdown_date" (Value.str "") h]
      rfl
    · intro h
      rw [dictGetD_of_not_hasKey data "deprecation_context" (Value.str "") h]
      rfl
    · intro h
      rw [dictGetD_of_not_hasKey data "url" (Value.str "") h]
      rfl
    · intro h1 h2
      show rm = Value.null
      have h0 : dictGet data "replacement_models" = Value.null :=
        dictGetD_of_not_hasKey data "replacement_models" Value.null h1
      unfold legacyMigrate at hmig
      rw [h0, h2] at hmig
      have h4 : (Except.ok Value.null : Except String Value) = .ok rm := hmig
      injection h4 with h5
      exact h5.symm
    · intro h
      rw [dictGetD_of_not_hasKey data "content_hash" (Value.str "") h]
      rfl
    · intro h
      rw [dictGetD_of_not_hasKey data "scraped_at" (Value.str "") h]
      rfl

/-- Witness for C5 at a map that has `provider` but no other key: the
present key is read and every absent one defaults per the theorem. -/
theorem spec_c5_witness :
    (DeprecationItem.construct "t" "p" "" "" "" "" .null
        "" "" "" "").model_id = "" ∧
    (DeprecationItem.construct "t" "p" "" "" "" "" .null
        "" "" "" "").scraped_at = "t" :=
  ⟨(spec_c5_defaults "t" [("provider", Value.str "p")]
      (DeprecationItem.construct "t" "p" "" "" "" "" .null "" "" "" "")
      rfl).2.1 rfl,
   (spec_c5_defaults "t" [("provider", Value.str "p")]
      (DeprecationItem.construct "t" "p" "" "" "" "" .null "" "" "" "")
      rfl).2.2.2.2.2.2.2.2.2 rfl⟩

/-- C6 counterexample: an explicitly supplied `content_hash` is stored as-is,
so `"zzz"` — three characters, none of them constrained to hex — survives
construction, refuting that every record's hash is 16 lowercase hex
characters. -/
theorem spec_c6_counterexample :
    (DeprecationItem.construct "t" "p" "mi" "mn" "ad" "sd" .null
        "" "" "zzz" "").content_hash = "zzz" ∧
    ("zzz" : String).length ≠ 16 := by
  refine ⟨rfl, by decide⟩

/-- C6 as amended: whenever the hash is derived — `Construct` with an empty
`content_hash` argument, or `FromMap` on a map without a `content_hash` key —
the resulting `content_hash` is exactly 16 characters, all of them lowercase
hexadecimal digits. -/
theorem spec_c6_derived_hash_hex :
    (∀ now p mi mn ad sd : String, ∀ rm : Value, ∀ dc u sa : String,
       (DeprecationItem.construct now p mi mn ad sd rm dc u ""
           sa).content_hash.length = 16 ∧
       ∀ c ∈ (DeprecationItem.construct now p mi mn ad sd rm dc u ""
           sa).content_hash.data, c ∈ hexChars) ∧
    (∀ (now : String) (data : Dict) (r : DeprecationItem),
       hasKey data "content_hash" = false →
       DeprecationItem.from_dict now data = .ok r →
       r.content_hash.length = 16 ∧
       ∀ c ∈ r.content_hash.data, c ∈ hexChars) := by
  constructor
  · intro now p mi mn ad sd rm dc u sa
    exact ⟨computeHash_length _, fun c hc => mem_computeHash_hex _ c hc⟩
  · intro now data r hkey hok
    have hget := dictGetD_of_not_hasKey data "content_hash" (.str "") hkey
    unfold DeprecationItem.from_dict at hok
    rcases hmig : legacyMigrate data with e | rm
    · rw [hmig] at hok
      exact Except.noConfusion hok
    · rw [hmig] at hok
      injection hok with hr
      rw [hget] at hr
      subst hr
      exact ⟨computeHash_length _, fun c hc => mem_computeHash_hex _ c hc⟩

/-- Witness for C6 via deserializing the empty map. -/
theorem spec_c6_witness :
    ("be5be69f55e91af2" : String).length = 16 ∧
    ∀ c ∈ ("be5be69f55e91af2" : String).data, c ∈ hexChars :=
  spec_c6_derived_hash_hex.2 "t" []
    ⟨"", "", "", "", "", .null, "", "", "be5be69f55e91af2", "t"⟩ rfl rfl

/-- C7 counterexample: `from_dict` on `{"replacement_model": 5}` evaluates
`"or" in 5` and raises `TypeError` instead of substituting a default. -/
theorem spec_c7_counterexample :
    DeprecationItem.from_dict "t" [("replacement_model", Value.int 5)] =
      .error "TypeError: argument of type int is not iterable" := rfl

/-- C7 as amended: construction is total, and deserialization returns a
record whenever the legacy `replacement_model` value is absent, `None`, or a
string; a truthy non-string value can instead raise (e.g. the integer `5`
raises `TypeError`). -/
theorem spec_c7_totality (now : String) (data : Dict)
    (h : dictGet data "replacement_model" = Value.null ∨
         ∃ s, dictGet data "replacement_model" = Value.str s) :
    exceptOk (DeprecationItem.from_dict now data) = true := by
  have hmig : exceptOk (legacyMigrate data) = true := by
    unfold legacyMigrate
    rcases h with hnull | ⟨s, hstr⟩
    · simp only [hnull]
      split
      · rfl
      · rfl
    · simp only [hstr]
      split
      · split
        · split
          · rfl
          · rfl
        · rfl
      · rfl
  unfold DeprecationItem.from_dict
  rcases hv : legacyMigrate data with e | v
  · rw [hv] at hmig
    exact absurd hmig (by simp [exceptOk])
  · rfl

/-- Witness for C7 at a string-valued legacy key. -/
theorem spec_c7_witness :
    exceptOk (DeprecationItem.from_dict "t"
      [("replacement_model", Value.str "x")]) = true :=
  spec_c7_totality "t" [("replacement_model", Value.str "x")]
    (Or.inr ⟨"x", rfl⟩)

end DeprecationsRss
